import Mathlib

/-!
Shallow embedding of the SESAME web API connection manager and operation
executor (src/web-api/main.py) and proofs about its connection-pooling,
retry and validation behaviour.

Conventions of the embedding:
* Timestamps are integers (`time.time()` values); `now` is passed explicitly.
* The external device library (pysesameos2) is an oracle `DeviceCap`: each
  kind of device call is a function of the number of such calls made so far,
  giving that call's outcome.  A ghost `World` of call counters is threaded
  through every operation, so theorems can speak about how many scans,
  connects, actions and backoff sleeps an execution performed.
* Python exceptions are modelled by explicit control flow: a helper returns
  either a normal value or an `Exc`, and the caller's `except` blocks are
  ordinary matches.
* Python truthiness of the optional timestamp matters: `not
  self.connection_time` is true for `None` and for `0.0`; `timeTruthy`
  reproduces this.
-/

namespace Sesame

/-- Product-model classification (`CHProductModel` in the source): `SS2`/`SS4`
are the lock family driven by `CHSesame2`, `SesameBot1` is the single-button
bot driven by `CHSesameBot`. -/
inductive ProductModel where
  | SS2
  | SS4
  | SesameBot1
deriving DecidableEq, Repr

/-- The string `str(device.productModel)` produces for each model. -/
def ProductModel.str : ProductModel → String
  | .SS2 => "CHProductModel.SS2"
  | .SS4 => "CHProductModel.SS4"
  | .SesameBot1 => "CHProductModel.SesameBot1"

/-- A device handle as produced by `_create_device_instance`: the scanned and
key-bound BLE device object.  Only the fields the claims touch are kept. -/
structure Device where
  uuid : String
  productModel : ProductModel
deriving DecidableEq, Repr

/-- Mechanical status snapshot (`getMechStatus()`).  `position` is `some`
exactly when the object has a `getPosition` attribute (lock family).  The
battery voltage is a float in the source; it is carried as an inert integer
datum here, no claim computes with it. -/
structure MechStatus where
  batteryPercentage : Int
  batteryVoltage : Int
  isInLockRange : Bool
  isInUnlockRange : Bool
  position : Option Int
deriving DecidableEq, Repr

/-- The environment-sourced configuration the manager reads
(`CONNECTION_TIMEOUT`, `MAX_RECONNECT_ATTEMPTS`). -/
structure Config where
  connectionTimeout : Int
  maxReconnectAttempts : Nat
deriving DecidableEq, Repr

/-- The defaults: 1800 seconds, 5 attempts. -/
def Config.default : Config := ⟨1800, 5⟩

/-- `ConnectionState`: the mutable fields of `SesameConnectionManager`
(`self.device`, `self.connection_time`, `self.is_connected`). -/
structure ConnState where
  device : Option Device
  connection_time : Option Int
  is_connected : Bool
deriving DecidableEq, Repr

/-- The state at process start (`__init__`). -/
def ConnState.init : ConnState := ⟨none, none, false⟩

/-- Python truthiness of the optional timestamp: `not self.connection_time`
is true for `None` and also for the float `0.0`. -/
def timeTruthy : Option Int → Bool
  | none => false
  | some t => t != 0

/-- `SesameConnectionManager.is_connection_valid` (main.py lines 85-95):
false when not connected or the timestamp is falsy; false when
`now - connection_time > CONNECTION_TIMEOUT` (strict comparison in the
source); true otherwise. -/
def is_connection_valid (cfg : Config) (s : ConnState) (now : Int) : Bool :=
  if !s.is_connected || !timeTruthy s.connection_time then false
  else if now - s.connection_time.getD 0 > cfg.connectionTimeout then false
  else true

/-- Ghost instrumentation: counters of the calls made to the device library
and the manager.  `sleeps` counts `asyncio.sleep(2)` backoffs and `sleepTime`
accumulates their fixed 2-second duration. -/
structure World where
  scanCalls : Nat
  connectCalls : Nat
  loginCalls : Nat
  actionCalls : Nat
  statusCalls : Nat
  sleeps : Nat
  sleepTime : Nat
  ensureCalls : Nat
deriving DecidableEq, Repr

/-- All counters zero. -/
def World.init : World := ⟨0, 0, 0, 0, 0, 0, 0, 0⟩

/-- The external device capability as oracles indexed by the respective call
counter: `scanResult k` is the outcome of the k-th
`CHBleManager().scan_by_address` call (`none` means the scan raised or found
nothing), `connectOk k` whether the k-th `device.connect()` returns normally,
`loginOk k` the same for `wait_for_login()`, `actionOk k` for the k-th device
action (`toggle`/`lock`/`unlock`/`click`) with `actionMsg k` the text of the
exception it raises on failure, and `mech`/`devStatus` the values of the k-th
`getMechStatus()`/`getDeviceStatus()` read. -/
structure DeviceCap where
  scanResult : Nat → Option Device
  connectOk : Nat → Bool
  loginOk : Nat → Bool
  actionOk : Nat → Bool
  actionMsg : Nat → String
  mech : Nat → Option MechStatus
  devStatus : Nat → String

/-- Result of `ensure_connection`: the boolean return value, the connection
state it leaves behind and the updated call counters. -/
structure EnsureOut where
  ok : Bool
  state : ConnState
  world : World
deriving DecidableEq, Repr

/-- Outcome of the `try` body of one `while` iteration of `ensure_connection`:
either the success return (state already updated) or an exception caught by
the handler (state as the body left it). -/
inductive AttemptOut where
  | ok (s : ConnState) (w : World)
  | fail (s : ConnState) (w : World)

/-- One iteration body of `ensure_connection` (main.py lines 137-158), after
the validity fast path: `get_or_create_device` (a scan only when no device is
cached), `device.connect()`, `device.wait_for_login()`; on success set
`is_connected`/`connection_time`.  Any device-library failure is `fail`; note
a scan failure leaves `self.device` unset while the exception propagates to
the handler. -/
def ensure_attempt (cap : DeviceCap) (now : Int) (s : ConnState) (w : World) :
    AttemptOut :=
  let scanned : Option Device × World :=
    match s.device with
    | some d => (some d, w)
    | none => (cap.scanResult w.scanCalls, {w with scanCalls := w.scanCalls + 1})
  match scanned with
  | (none, w1) => .fail s w1
  | (some d, w1) =>
    let s1 := {s with device := some d}
    let w2 := {w1 with connectCalls := w1.connectCalls + 1}
    if cap.connectOk w1.connectCalls then
      let w3 := {w2 with loginCalls := w2.loginCalls + 1}
      if cap.loginOk w2.loginCalls then
        .ok {s1 with is_connected := true, connection_time := some now} w3
      else .fail s1 w3
    else .fail s1 w2

/-- The `while attempts < max_attempts` loop of `ensure_connection`
(main.py lines 134-175).  `fuel` is `max_attempts - attempts`.  The exception
handler resets `is_connected`/`connection_time` (the cached device handle is
not touched), then sleeps 2 seconds and retries when attempts remain,
otherwise returns false. -/
def ensure_loop (cfg : Config) (cap : DeviceCap) (now : Int) :
    Nat → ConnState → World → EnsureOut
  | 0, s, w => ⟨false, s, w⟩
  | fuel + 1, s, w =>
    if is_connection_valid cfg s now then ⟨true, s, w⟩
    else
      match ensure_attempt cap now s w with
      | .ok s1 w1 => ⟨true, s1, w1⟩
      | .fail s1 w1 =>
        let s2 := {s1 with is_connected := false, connection_time := none}
        if fuel == 0 then ⟨false, s2, w1⟩
        else
          ensure_loop cfg cap now fuel s2
            {w1 with sleeps := w1.sleeps + 1, sleepTime := w1.sleepTime + 2}

/-- `SesameConnectionManager.ensure_connection(max_attempts)` (main.py lines
131-175).  The `ensureCalls` counter records the invocation itself. -/
def ensure_connection (cfg : Config) (cap : DeviceCap) (now : Int)
    (s : ConnState) (w : World) (maxAttempts : Nat) : EnsureOut :=
  ensure_loop cfg cap now maxAttempts s {w with ensureCalls := w.ensureCalls + 1}

/-- `SesameConnectionManager.disconnect` (main.py lines 177-188): when a
device is cached and connected, call the handle's disconnect (whether it
raises — `raised` — or not, errors are only logged) and in `finally` clear
`is_connected`/`connection_time`.  The cached device handle is kept. -/
def disconnect (s : ConnState) (raised : Bool) : ConnState :=
  if s.device.isSome && s.is_connected then
    let _ := raised
    {s with is_connected := false, connection_time := none}
  else s

/-- The dictionary `get_device_info` builds (main.py lines 190-201). -/
structure DeviceInfo where
  device_id : String
  product_model : String
  is_connected : Bool
  connection_time : Option Int
  connection_age : Option Int
deriving DecidableEq, Repr

/-- `SesameConnectionManager.get_device_info` (main.py lines 190-201): `none`
models the empty dict returned when no device instance exists;
`connection_age` mirrors the conditional expression (a falsy timestamp gives
`None`). -/
def get_device_info (s : ConnState) (now : Int) : Option DeviceInfo :=
  match s.device with
  | none => none
  | some d =>
    some
      { device_id := d.uuid
        product_model := d.productModel.str
        is_connected := s.is_connected
        connection_time := s.connection_time
        connection_age :=
          if timeTruthy s.connection_time then some (now - s.connection_time.getD 0)
          else none }

/-- What the `/connection` endpoint reports from the snapshot:
`device_info.get("is_connected", False)` — `False` for the empty dict. -/
def info_reports_connected (info : Option DeviceInfo) : Bool :=
  match info with
  | none => false
  | some i => i.is_connected

/-- The operation strings the endpoints pass to `perform_device_operation`. -/
inductive Operation where
  | toggle
  | lock
  | unlock
  | click
deriving DecidableEq, Repr

/-- The operation's string form. -/
def Operation.name : Operation → String
  | .toggle => "toggle"
  | .lock => "lock"
  | .unlock => "unlock"
  | .click => "click"

/-- The exceptions `perform_device_operation` can catch, each carrying the
information `str(e)` renders. -/
inductive Exc where
  | connectFail
  | unsupportedLock (op : Operation)
  | unsupportedBot (op : Operation)
  | actionError (m : String)
  | noDevice
deriving DecidableEq, Repr

/-- `str(e)` of each exception: the `RuntimeError` of line 237, the
`ValueError`s of lines 251 and 257, a device-library action failure, and the
`AttributeError` Python raises when `connection_manager.device` is `None`. -/
def Exc.msg : Exc → String
  | .connectFail => "Failed to establish connection to device"
  | .unsupportedLock op => "Operation '" ++ op.name ++ "' not supported for SESAME 2/4"
  | .unsupportedBot op => "Operation '" ++ op.name ++ "' not supported for SESAME Bot"
  | .actionError m => m
  | .noDevice => "'NoneType' object has no attribute 'productModel'"

/-- The dictionary `perform_device_operation` returns.  Fields absent from the
error dictionary of lines 344-349 are `none`. -/
structure OpResult where
  success : Bool
  message : String
  device_id : Option String
  product_model : Option String
  device_status : Option String
  connection_reused : Bool
  reconnect_attempts : Nat
  battery_percentage : Option Int
  battery_voltage : Option Int
  is_in_lock_range : Option Bool
  is_in_unlock_range : Option Bool
  position : Option Int
deriving DecidableEq, Repr

/-- Result of the executor: the returned dictionary, the connection state it
leaves behind and the updated call counters. -/
structure PerformOut where
  result : OpResult
  state : ConnState
  world : World
deriving DecidableEq, Repr

/-- The spec's action-to-family legality table (§4.2 step 3): the lock family
accepts toggle/lock/unlock, the bot family accepts click only.  Spec-side
predicate used to state validation claims; the executor's own dispatch is
`first_dispatch`/`retry_dispatch`. -/
def legal_action (m : ProductModel) (op : Operation) : Bool :=
  match m with
  | .SS2 | .SS4 => op != .click
  | .SesameBot1 => op == .click

/-- One device-action invocation (`await device.toggle/lock/unlock/click`):
`none` on success, the raised exception's text on failure; the action-call
counter is bumped either way. -/
def run_action (cap : DeviceCap) (w : World) : Option String × World :=
  let idx := w.actionCalls
  ((if cap.actionOk idx then none else some (cap.actionMsg idx)),
   {w with actionCalls := w.actionCalls + 1})

/-- The first-attempt action dispatch (main.py lines 243-257): lock family
runs toggle/lock/unlock and raises `ValueError` otherwise; the bot runs click
and raises `ValueError` otherwise.  Returns the raised exception, if any. -/
def first_dispatch (cap : DeviceCap) (op : Operation) (d : Device) (w : World) :
    Option Exc × World :=
  match d.productModel with
  | .SS2 | .SS4 =>
    match op with
    | .toggle | .lock | .unlock =>
      match run_action cap w with
      | (none, w1) => (none, w1)
      | (some m, w1) => (some (.actionError m), w1)
    | .click => (some (.unsupportedLock op), w)
  | .SesameBot1 =>
    match op with
    | .click =>
      match run_action cap w with
      | (none, w1) => (none, w1)
      | (some m, w1) => (some (.actionError m), w1)
    | _ => (some (.unsupportedBot op), w)

/-- The retry-path action dispatch (main.py lines 303-312): the same chains
but with no `else` branches — an operation matching no branch performs no
device action and control falls through to the success result. -/
def retry_dispatch (cap : DeviceCap) (op : Operation) (d : Device) (w : World) :
    Option Exc × World :=
  match d.productModel with
  | .SS2 | .SS4 =>
    match op with
    | .toggle | .lock | .unlock =>
      match run_action cap w with
      | (none, w1) => (none, w1)
      | (some m, w1) => (some (.actionError m), w1)
    | .click => (none, w)
  | .SesameBot1 =>
    match op with
    | .click =>
      match run_action cap w with
      | (none, w1) => (none, w1)
      | (some m, w1) => (some (.actionError m), w1)
    | _ => (none, w)

/-- The status read-back of both result paths (`getMechStatus()`,
`getDeviceStatus()`). -/
def read_status (cap : DeviceCap) (w : World) :
    Option MechStatus × String × World :=
  (cap.mech w.statusCalls, cap.devStatus w.statusCalls,
   {w with statusCalls := w.statusCalls + 1})

/-- The success dictionary (main.py lines 263-284 and 318-337): `suffix` is
empty on the first attempt and " after reconnection" on the retry; mechanical
fields are added when `getMechStatus()` is truthy, position only when the
status object has `getPosition`. -/
def mkSuccessResult (op : Operation) (d : Device) (suffix : String)
    (reused : Bool) (ra : Nat) (mech : Option MechStatus) (ds : String) :
    OpResult :=
  { success := true
    message := "Operation '" ++ op.name ++ "' completed successfully" ++ suffix
    device_id := some d.uuid
    product_model := some d.productModel.str
    device_status := some ds
    connection_reused := reused
    reconnect_attempts := ra
    battery_percentage := mech.map (·.batteryPercentage)
    battery_voltage := mech.map (·.batteryVoltage)
    is_in_lock_range := mech.map (·.isInLockRange)
    is_in_unlock_range := mech.map (·.isInUnlockRange)
    position := mech.bind (·.position) }

/-- The error dictionary (main.py lines 344-349), built from the outer
exception. -/
def mkErrorResult (e : Exc) (reused : Bool) (ra : Nat) : OpResult :=
  { success := false
    message := "Error: " ++ e.msg
    device_id := none
    product_model := none
    device_status := none
    connection_reused := reused
    reconnect_attempts := ra
    battery_percentage := none
    battery_voltage := none
    is_in_lock_range := none
    is_in_unlock_range := none
    position := none }

/-- Outcome of the `try` body of `perform_device_operation` after the
connection step: either the assembled success result or an exception for the
`except` block (connection state unchanged by the body). -/
inductive TryOut where
  | ok (r : OpResult) (s : ConnState) (w : World)
  | exc (e : Exc) (s : ConnState) (w : World)

/-- The first-attempt `try` body after a connection is in hand (main.py lines
239-286): read `connection_manager.device` (an absent device raises
`AttributeError`), dispatch the action, read status and build the result. -/
def perform_try (cap : DeviceCap) (op : Operation) (reused : Bool) (ra : Nat)
    (s : ConnState) (w : World) : TryOut :=
  match s.device with
  | none => .exc .noDevice s w
  | some d =>
    match first_dispatch cap op d w with
    | (some e, w1) => .exc e s w1
    | (none, w1) =>
      match read_status cap w1 with
      | (mech, ds, w2) => .ok (mkSuccessResult op d "" reused ra mech ds) s w2

/-- The retry after a successful reconnection (main.py lines 300-339): fetch
the device again, run the no-`else` dispatch, and build the "after
reconnection" success result with `reconnect_attempts + 1`; any failure in
here is caught by the inner `except` and the error result is built from the
outer exception `e`. -/
def perform_retry (cap : DeviceCap) (op : Operation) (e : Exc) (ra : Nat)
    (s : ConnState) (w : World) : PerformOut :=
  match s.device with
  | none => ⟨mkErrorResult e false ra, s, w⟩
  | some d =>
    match retry_dispatch cap op d w with
    | (some _, w1) => ⟨mkErrorResult e false ra, s, w1⟩
    | (none, w1) =>
      match read_status cap w1 with
      | (mech, ds, w2) =>
        ⟨mkSuccessResult op d " after reconnection" false (ra + 1) mech ds, s, w2⟩

/-- The `except` block of `perform_device_operation` (main.py lines 288-349):
when the connection was not reused and `reconnect_attempts` is below
`MAX_RECONNECT_ATTEMPTS`, reset `is_connected`/`connection_time` (with no
lock held) and call `ensure_connection()` once more; on its success run the
retry, otherwise — and in every other case — return the error result built
from the caught exception. -/
def perform_handle (cfg : Config) (cap : DeviceCap) (now : Int)
    (op : Operation) (e : Exc) (reused : Bool) (ra : Nat) (s : ConnState)
    (w : World) : PerformOut :=
  if !reused && ra < cfg.maxReconnectAttempts then
    let s1 := {s with is_connected := false, connection_time := none}
    let r := ensure_connection cfg cap now s1 w cfg.maxReconnectAttempts
    if r.ok then perform_retry cap op e ra r.state r.world
    else ⟨mkErrorResult e reused ra, r.state, r.world⟩
  else ⟨mkErrorResult e reused ra, s, w⟩

/-- `perform_device_operation(operation, history_tag)` (main.py lines
214-349).  If `is_connection_valid()` the session is reused
(`connection_reused := true`, `reconnect_attempts := 0`); otherwise
`reconnect_attempts := 1` and `ensure_connection()` is called, its `False`
return raising the `RuntimeError` of line 237.  The `try` body then performs
the operation; any exception goes to `perform_handle`. -/
def perform_device_operation (cfg : Config) (cap : DeviceCap) (now : Int)
    (op : Operation) (s : ConnState) (w : World) : PerformOut :=
  if is_connection_valid cfg s now then
    match perform_try cap op true 0 s w with
    | .ok r s1 w1 => ⟨r, s1, w1⟩
    | .exc e s1 w1 => perform_handle cfg cap now op e true 0 s1 w1
  else
    let r := ensure_connection cfg cap now s w cfg.maxReconnectAttempts
    if r.ok then
      match perform_try cap op false 1 r.state r.world with
      | .ok res s1 w1 => ⟨res, s1, w1⟩
      | .exc e s1 w1 => perform_handle cfg cap now op e false 1 s1 w1
    else perform_handle cfg cap now op .connectFail false 1 r.state r.world

/-- The invariant of §3 of the spec: whenever `connected == true`, the device
handle and the `connectedAt` timestamp are present. -/
def StateInv (s : ConnState) : Prop :=
  s.is_connected = true → s.device.isSome = true ∧ s.connection_time.isSome = true

/-- Reachable states also satisfy: when not connected the timestamp is
already cleared (every path that unsets the flag also unsets the time). -/
def ReachInv (s : ConnState) : Prop :=
  StateInv s ∧ (s.is_connected = false → s.connection_time = none)

/-! Concrete fixtures used by counterexamples and witnesses. -/

/-- A lock-family device. -/
def dev1 : Device := ⟨"uuid-1", .SS2⟩

/-- A capability whose every call succeeds. -/
def capAllOk : DeviceCap :=
  ⟨fun _ => some dev1, fun _ => true, fun _ => true,
   fun _ => true, fun _ => "boom", fun _ => none, fun _ => "locked"⟩

/-- A capability whose first two `connect()` calls raise and whose third
succeeds (the spec's retry scenario mock). -/
def capConnectTwiceFails : DeviceCap :=
  ⟨fun _ => some dev1, fun i => decide (i = 2), fun _ => true,
   fun _ => true, fun _ => "boom", fun _ => none, fun _ => "locked"⟩

/-- A capability that connects fine but whose every device action raises. -/
def capActFail : DeviceCap :=
  ⟨fun _ => some dev1, fun _ => true, fun _ => true,
   fun _ => false, fun _ => "link dropped", fun _ => none, fun _ => "locked"⟩

/-- A capability whose every `connect()` raises. -/
def capConnFail : DeviceCap :=
  ⟨fun _ => some dev1, fun _ => false, fun _ => true,
   fun _ => true, fun _ => "boom", fun _ => none, fun _ => "locked"⟩

/-- A capability whose first device action raises and whose second succeeds
(a pooled session that went stale, recovered by one reconnect). -/
def capActOnceFails : DeviceCap :=
  ⟨fun _ => some dev1, fun _ => true, fun _ => true,
   fun i => decide (i = 1), fun _ => "link dropped", fun _ => none, fun _ => "locked"⟩

/-!
A small interleaving semantics for the concurrency claim.  Asyncio runs the
code of each request as a task; control changes hands only at `await` points.
`Conc.TPos` is a task's position at such a point inside
`ensure_connection` — or at the operation executor's recovery-path reset
(main.py lines 296-297), which runs without the connection lock.  `Conc.step`
executes the code between one await point and the next atomically, gating
`async with self.connection_lock` entry on the lock being free.  The shared
resources are the manager's `ConnState`, the ghost call counters and the lock
owner.
-/

namespace Conc

/-- A task's position at an await boundary.  `acquiring m` is a request
waiting to enter `ensure_connection(m)`'s `async with self.connection_lock`;
`atLoop fuel` is the top of the `while attempts < max_attempts` check with
`fuel = max_attempts - attempts`; `scanning`/`connecting`/`loggingIn` are the
awaits on the device library; `backoff` is the `asyncio.sleep(2)`;
`releasing ok` is the lock release on return; `resetPending` is an operation
executor about to run the unlocked reset of main.py lines 296-297. -/
inductive TPos where
  | acquiring (maxAttempts : Nat)
  | atLoop (fuel : Nat)
  | scanning (fuel : Nat)
  | connecting (fuel : Nat)
  | loggingIn (fuel : Nat)
  | backoff (fuel : Nat)
  | releasing (ok : Bool)
  | done (ok : Bool)
  | resetPending
  | resetDone
deriving DecidableEq, Repr

/-- Whether the position is inside the lock-protected section of
`ensure_connection` (between acquiring the lock and releasing it). -/
def inSection : TPos → Bool
  | .atLoop _ | .scanning _ | .connecting _ | .loggingIn _ | .backoff _
  | .releasing _ => true
  | _ => false

/-- The shared mutable resources: the single `ConnState`, the ghost call
counters and the `connection_lock` owner. -/
structure Shared where
  conn : ConnState
  world : World
  owner : Option Nat
deriving DecidableEq, Repr

/-- A system: the shared resources and every task's position. -/
structure Sys where
  shared : Shared
  tasks : Nat → TPos

/-- Point update of the task map. -/
def upd (f : Nat → TPos) (t : Nat) (p : TPos) : Nat → TPos :=
  fun u => if u = t then p else f u

/-- The exception handler of the loop (main.py lines 160-173) as seen from a
failing attempt with `fuel` iterations remaining including the current one:
clear flag and timestamp, then sleep if attempts remain, else head for the
`return False`. -/
def failPos (fuel : Nat) : TPos :=
  if fuel - 1 = 0 then .releasing false else .backoff (fuel - 1)

/-- One scheduler step: run task `t` from its await point to the next.  A
task whose head awaits the lock only proceeds when the lock is free; the
recovery-path reset proceeds regardless of the lock, mutating the shared
connection state. -/
def step (cfg : Config) (cap : DeviceCap) (now : Int) (sys : Sys) (t : Nat) :
    Sys :=
  let sh := sys.shared
  match sys.tasks t with
  | .acquiring m =>
    match sh.owner with
    | none => ⟨{sh with owner := some t}, upd sys.tasks t (.atLoop m)⟩
    | some _ => sys
  | .atLoop 0 => ⟨sh, upd sys.tasks t (.releasing false)⟩
  | .atLoop (f + 1) =>
    if is_connection_valid cfg sh.conn now then
      ⟨sh, upd sys.tasks t (.releasing true)⟩
    else
      match sh.conn.device with
      | none => ⟨sh, upd sys.tasks t (.scanning (f + 1))⟩
      | some _ => ⟨sh, upd sys.tasks t (.connecting (f + 1))⟩
  | .scanning f =>
    let w1 := {sh.world with scanCalls := sh.world.scanCalls + 1}
    match cap.scanResult sh.world.scanCalls with
    | some d =>
      ⟨{sh with conn := {sh.conn with device := some d}, world := w1},
       upd sys.tasks t (.connecting f)⟩
    | none =>
      ⟨{sh with
          conn := {sh.conn with is_connected := false, connection_time := none},
          world := w1},
       upd sys.tasks t (failPos f)⟩
  | .connecting f =>
    let w1 := {sh.world with connectCalls := sh.world.connectCalls + 1}
    if cap.connectOk sh.world.connectCalls then
      ⟨{sh with world := w1}, upd sys.tasks t (.loggingIn f)⟩
    else
      ⟨{sh with
          conn := {sh.conn with is_connected := false, connection_time := none},
          world := w1},
       upd sys.tasks t (failPos f)⟩
  | .loggingIn f =>
    let w1 := {sh.world with loginCalls := sh.world.loginCalls + 1}
    if cap.loginOk sh.world.loginCalls then
      ⟨{sh with
          conn := {sh.conn with is_connected := true, connection_time := some now},
          world := w1},
       upd sys.tasks t (.releasing true)⟩
    else
      ⟨{sh with
          conn := {sh.conn with is_connected := false, connection_time := none},
          world := w1},
       upd sys.tasks t (failPos f)⟩
  | .backoff f =>
    let w1 := {sh.world with sleeps := sh.world.sleeps + 1, sleepTime := sh.world.sleepTime + 2}
    ⟨{sh with world := w1}, upd sys.tasks t (.atLoop f)⟩
  | .releasing ok =>
    if sh.owner = some t then ⟨{sh with owner := none}, upd sys.tasks t (.done ok)⟩
    else ⟨sh, upd sys.tasks t (.done ok)⟩
  | .done _ => sys
  | .resetPending =>
    ⟨{sh with
        conn := {sh.conn with is_connected := false, connection_time := none}},
     upd sys.tasks t .resetDone⟩
  | .resetDone => sys

/-- Run a whole schedule (a list of task choices). -/
def run (cfg : Config) (cap : DeviceCap) (now : Int) (sys : Sys)
    (sched : List Nat) : Sys :=
  sched.foldl (step cfg cap now) sys

/-- The lock invariant: any task inside the lock-protected section is the
lock's owner (so there is at most one such task). -/
def LockInv (sys : Sys) : Prop :=
  ∀ t, inSection (sys.tasks t) = true → sys.shared.owner = some t

/-- A system of fresh concurrent requests: every task is either awaiting the
lock or at the executor's recovery reset; nobody is inside yet. -/
def startSys (conn : ConnState) (w : World) (tasks : Nat → TPos) : Sys :=
  ⟨⟨conn, w, none⟩, tasks⟩

/-- Concrete two-task system for the counterexample: task 0 is an
`ensure_connection(5)` call about to acquire the lock, task 1 an operation
executor about to run the unlocked recovery reset; the pooled connection is
live (stamped 50). -/
def sysCX : Sys :=
  ⟨⟨⟨some dev1, some 50, true⟩, World.init, none⟩,
   fun u => if u = 0 then .acquiring 5 else if u = 1 then .resetPending else .done false⟩

end Conc

/-! ## Lemmas about `ensure_connection` -/

/-- One loop iteration's body never touches the action, status or ensure
counters and makes at most one connect call. -/
theorem ensure_attempt_world (cap : DeviceCap) (now : Int) (s : ConnState) (w : World) :
    (∀ s1 w1, ensure_attempt cap now s w = .ok s1 w1 →
      w1.actionCalls = w.actionCalls ∧ w1.statusCalls = w.statusCalls ∧
      w1.ensureCalls = w.ensureCalls ∧ w1.connectCalls ≤ w.connectCalls + 1) ∧
    (∀ s1 w1, ensure_attempt cap now s w = .fail s1 w1 →
      w1.actionCalls = w.actionCalls ∧ w1.statusCalls = w.statusCalls ∧
      w1.ensureCalls = w.ensureCalls ∧ w1.connectCalls ≤ w.connectCalls + 1) := by
  unfold ensure_attempt
  rcases hd : s.device with _ | d
  · rcases hs : cap.scanResult w.scanCalls with _ | d2
    · simp [hd, hs]
    · simp only [hd, hs]
      split_ifs with h1 h2 <;> constructor <;> intro s1 w1 he <;>
        simp only [AttemptOut.ok.injEq, AttemptOut.fail.injEq] at he
      all_goals
        obtain ⟨h3, h4⟩ := he
        subst h3
        subst h4
        refine ⟨rfl, rfl, rfl, by simp⟩
  · simp only [hd]
    split_ifs with h1 h2 <;> constructor <;> intro s1 w1 he <;>
      simp only [AttemptOut.ok.injEq, AttemptOut.fail.injEq] at he
    all_goals
      obtain ⟨h3, h4⟩ := he
      subst h3
      subst h4
      refine ⟨rfl, rfl, rfl, by simp⟩

/-- A successful iteration leaves a connected state with a device handle and
the fresh timestamp. -/
theorem ensure_attempt_ok_state (cap : DeviceCap) (now : Int) (s : ConnState)
    (w : World) (s1 : ConnState) (w1 : World)
    (h : ensure_attempt cap now s w = .ok s1 w1) :
    s1.is_connected = true ∧ s1.device.isSome = true ∧ s1.connection_time = some now := by
  unfold ensure_attempt at h
  rcases hd : s.device with _ | d <;> simp only [hd] at h
  · rcases hs : cap.scanResult w.scanCalls with _ | d2 <;> simp only [hs] at h
    · exact absurd h (by simp)
    · split_ifs at h <;>
        simp only [AttemptOut.ok.injEq] at h
      obtain ⟨h3, _⟩ := h
      subst h3
      exact ⟨rfl, rfl, rfl⟩
  · split_ifs at h <;> simp only [AttemptOut.ok.injEq] at h
    obtain ⟨h3, _⟩ := h
    subst h3
    exact ⟨rfl, rfl, rfl⟩

/-- Once a device handle is cached the iteration body never removes it (the
scan is skipped; only `is_connected`/`connection_time` are written). -/
theorem ensure_attempt_device (cap : DeviceCap) (now : Int) (s : ConnState)
    (w : World) (d : Device) (hd : s.device = some d) :
    (∀ s1 w1, ensure_attempt cap now s w = .ok s1 w1 → s1.device = some d) ∧
    (∀ s1 w1, ensure_attempt cap now s w = .fail s1 w1 → s1.device = some d) := by
  unfold ensure_attempt
  simp only [hd]
  split_ifs with h1 h2 <;> constructor <;> intro s1 w1 he <;>
    simp only [AttemptOut.ok.injEq, AttemptOut.fail.injEq] at he
  all_goals
    obtain ⟨h3, _⟩ := he
    subst h3
    simp [hd]

/-- Along the whole retry loop the action, status and ensure counters never
move, and at most `fuel` connect calls are made. -/
theorem ensure_loop_world (cfg : Config) (cap : DeviceCap) (now : Int)
    (fuel : Nat) : ∀ s w,
    (ensure_loop cfg cap now fuel s w).world.actionCalls = w.actionCalls ∧
    (ensure_loop cfg cap now fuel s w).world.statusCalls = w.statusCalls ∧
    (ensure_loop cfg cap now fuel s w).world.ensureCalls = w.ensureCalls ∧
    (ensure_loop cfg cap now fuel s w).world.connectCalls ≤ w.connectCalls + fuel := by
  induction fuel with
  | zero => intro s w; simp [ensure_loop]
  | succ fuel ih =>
    intro s w
    rw [ensure_loop]
    by_cases hv : is_connection_valid cfg s now = true
    · simp [hv]
    · simp only [hv]
      rcases ha : ensure_attempt cap now s w with ⟨s1, w1⟩ | ⟨s1, w1⟩
      · have h := (ensure_attempt_world cap now s w).1 s1 w1 ha
        simp only [Bool.false_eq_true, if_false]
        constructor
        · exact h.1
        · exact ⟨h.2.1, h.2.2.1, by omega⟩
      · have h := (ensure_attempt_world cap now s w).2 s1 w1 ha
        by_cases hz : fuel = 0
        · subst hz
          simp only [Bool.false_eq_true, if_false, beq_self_eq_true, if_pos]
          exact ⟨h.1, h.2.1, h.2.2.1, by omega⟩
        · have ih' := ih {s1 with is_connected := false, connection_time := none}
            {w1 with sleeps := w1.sleeps + 1, sleepTime := w1.sleepTime + 2}
          simp only [Bool.false_eq_true, if_false, hz, beq_iff_eq, if_neg hz]
          refine ⟨?_, ?_, ?_, ?_⟩
          · rw [ih'.1]; exact h.1
          · rw [ih'.2.1]; exact h.2.1
          · rw [ih'.2.2.1]; exact h.2.2.1
          · have := ih'.2.2.2
            simp only at this
            omega

/-- The loop never discards a cached device handle. -/
theorem ensure_loop_device (cfg : Config) (cap : DeviceCap) (now : Int)
    (fuel : Nat) : ∀ s w (d : Device), s.device = some d →
    (ensure_loop cfg cap now fuel s w).state.device = some d := by
  induction fuel with
  | zero => intro s w d hd; simpa [ensure_loop] using hd
  | succ fuel ih =>
    intro s w d hd
    rw [ensure_loop]
    by_cases hv : is_connection_valid cfg s now = true
    · simpa [hv] using hd
    · simp only [hv]
      rcases ha : ensure_attempt cap now s w with ⟨s1, w1⟩ | ⟨s1, w1⟩
      · have h := (ensure_attempt_device cap now s w d hd).1 s1 w1 ha
        simpa using h
      · have h := (ensure_attempt_device cap now s w d hd).2 s1 w1 ha
        by_cases hz : fuel = 0
        · subst hz
          simpa using h
        · simp only [Bool.false_eq_true, if_false, beq_iff_eq, if_neg hz]
          exact ih _ _ d (by simpa using h)

/-- When the loop was entered with attempts remaining and returns false, the
state it leaves has the flag and timestamp cleared (by the exception handler
of lines 164-166). -/
theorem ensure_loop_fail_clears (cfg : Config) (cap : DeviceCap) (now : Int)
    (fuel : Nat) : ∀ s w, 0 < fuel →
    (ensure_loop cfg cap now fuel s w).ok = false →
    (ensure_loop cfg cap now fuel s w).state.is_connected = false ∧
    (ensure_loop cfg cap now fuel s w).state.connection_time = none := by
  induction fuel with
  | zero => intro s w h; omega
  | succ fuel ih =>
    intro s w _
    rw [ensure_loop]
    by_cases hv : is_connection_valid cfg s now = true
    · simp [hv]
    · simp only [hv]
      rcases ha : ensure_attempt cap now s w with ⟨s1, w1⟩ | ⟨s1, w1⟩
      · simp
      · by_cases hz : fuel = 0
        · subst hz
          simp
        · simp only [Bool.false_eq_true, if_false, beq_iff_eq, if_neg hz]
          exact fun hok => ih _ _ (Nat.pos_of_ne_zero hz) hok

/-- The loop preserves the handle/timestamp invariant. -/
theorem ensure_loop_inv (cfg : Config) (cap : DeviceCap) (now : Int)
    (fuel : Nat) : ∀ s w, StateInv s →
    StateInv (ensure_loop cfg cap now fuel s w).state := by
  induction fuel with
  | zero => intro s w h; simpa [ensure_loop] using h
  | succ fuel ih =>
    intro s w h
    rw [ensure_loop]
    by_cases hv : is_connection_valid cfg s now = true
    · simpa [hv] using h
    · simp only [hv]
      rcases ha : ensure_attempt cap now s w with ⟨s1, w1⟩ | ⟨s1, w1⟩
      · have hs := ensure_attempt_ok_state cap now s w s1 w1 ha
        simp only [Bool.false_eq_true, if_false]
        exact fun _ => ⟨hs.2.1, by simp [hs.2.2]⟩
      · by_cases hz : fuel = 0
        · subst hz
          simp only [Bool.false_eq_true, if_false, beq_self_eq_true, if_pos]
          intro hc
          exact absurd hc (by simp)
        · simp only [Bool.false_eq_true, if_false, beq_iff_eq, if_neg hz]
          exact ih _ _ (fun hc => absurd hc (by simp))

/-! ## Claim C5 -/

/-- C5 counterexample: with the default 1800-second timeout, a session
stamped 10 and checked at `now = 1810` has `now - connectedAt = 1800`, which
is `≥ connectionTimeout`; the claim says `is_connection_valid` must be false
there, but the source compares with a strict `>` (main.py line 91) and
returns true. -/
theorem c5_valid_boundary_counterexample :
    is_connection_valid Config.default ⟨some dev1, some 10, true⟩ 1810 = true ∧
    (1810 : Int) - 10 ≥ Config.default.connectionTimeout :=
  ⟨rfl, by decide⟩

/-- C5 (amended): `is_connection_valid` is false whenever not connected or
the timestamp is absent; false whenever `now - connectedAt` exceeds the
timeout strictly; and true exactly when connected, the timestamp is present
and nonzero (Python truthiness of line 87), and `now - connectedAt ≤
connectionTimeout`. -/
theorem c5_valid_characterization (cfg : Config) (s : ConnState) (now : Int) :
    (s.is_connected = false → is_connection_valid cfg s now = false) ∧
    (s.connection_time = none → is_connection_valid cfg s now = false) ∧
    (∀ t, s.connection_time = some t → now - t > cfg.connectionTimeout →
      is_connection_valid cfg s now = false) ∧
    (is_connection_valid cfg s now = true ↔
      s.is_connected = true ∧ ∃ t, s.connection_time = some t ∧ t ≠ 0 ∧
        now - t ≤ cfg.connectionTimeout) := by
  obtain ⟨d, t, c⟩ := s
  cases c <;> rcases t with _ | t <;>
    simp [is_connection_valid, timeTruthy]
  by_cases ht : t = 0
  · subst ht
    simp
  · simp only [ht, if_neg, if_pos]
    by_cases hgt : now - t > cfg.connectionTimeout
    · simp [hgt, ht]
    · simp [hgt, ht]

/-- C5 witness: the characterization applied at a concrete state with an
absent timestamp. -/
theorem c5_valid_characterization_witness :
    is_connection_valid Config.default ⟨some dev1, none, true⟩ 100 = false :=
  (c5_valid_characterization Config.default ⟨some dev1, none, true⟩ 100).2.1 rfl

/-! ## Claim C6 -/

/-- C6 counterexample: a fresh `ensure_connection(1)` whose scan succeeds and
whose connect raises returns false with the flag and timestamp cleared, but
the cached device handle is NOT reset to empty — the handler of main.py lines
164-166 clears only `is_connected` and `connection_time`. -/
theorem c6_handle_not_cleared_counterexample :
    (ensure_connection Config.default capConnFail 100 ConnState.init World.init 1).ok = false ∧
    (ensure_connection Config.default capConnFail 100 ConnState.init World.init 1).state.device = some dev1 ∧
    (ensure_connection Config.default capConnFail 100 ConnState.init World.init 1).state.is_connected = false ∧
    (ensure_connection Config.default capConnFail 100 ConnState.init World.init 1).state.connection_time = none :=
  ⟨rfl, rfl, rfl, rfl⟩

/-- C6 (amended): on failure inside `ensure_connection` the connected flag
and the connectedAt timestamp are reset before any retry or return false, but
the cached device handle is retained (it is reused by the next attempt). -/
theorem c6_failure_clears_flag_and_time_only (cfg : Config) (cap : DeviceCap)
    (now : Int) (s : ConnState) (w : World) (m : Nat) (d : Device)
    (hm : 0 < m) (hd : s.device = some d) :
    ((ensure_connection cfg cap now s w m).ok = false →
      (ensure_connection cfg cap now s w m).state.is_connected = false ∧
      (ensure_connection cfg cap now s w m).state.connection_time = none) ∧
    (ensure_connection cfg cap now s w m).state.device = some d := by
  unfold ensure_connection
  exact ⟨fun h => ensure_loop_fail_clears cfg cap now m s _ hm h,
         ensure_loop_device cfg cap now m s _ d hd⟩

/-- C6 witness: the amended claim applied at a failing connect with a cached
handle. -/
theorem c6_failure_clears_witness :
    (ensure_connection Config.default capConnFail 100 ⟨some dev1, none, false⟩ World.init 1).state.device = some dev1 :=
  (c6_failure_clears_flag_and_time_only Config.default capConnFail 100
    ⟨some dev1, none, false⟩ World.init 1 dev1 (by decide) rfl).2

/-! ## Claim C7 -/

/-- C7: `ensure_connection` never makes more than `maxAttempts` device
connect calls per invocation; and in the spec's scenario — fresh state, a
mock whose connect fails twice then succeeds, `ensure_connection(3)` —
it returns true, makes exactly 3 connect calls and exactly two 2-second
backoff waits. -/
theorem c7_connect_calls_bounded :
    (∀ cfg cap now s w m,
      (ensure_connection cfg cap now s w m).world.connectCalls ≤ w.connectCalls + m) ∧
    ((ensure_connection Config.default capConnectTwiceFails 100 ConnState.init World.init 3).ok = true ∧
     (ensure_connection Config.default capConnectTwiceFails 100 ConnState.init World.init 3).world.connectCalls = 3 ∧
     (ensure_connection Config.default capConnectTwiceFails 100 ConnState.init World.init 3).world.sleeps = 2 ∧
     (ensure_connection Config.default capConnectTwiceFails 100 ConnState.init World.init 3).world.sleepTime = 4) := by
  constructor
  · intro cfg cap now s w m
    have h := (ensure_loop_world cfg cap now m s {w with ensureCalls := w.ensureCalls + 1}).2.2.2
    unfold ensure_connection
    simpa using h
  · exact ⟨rfl, rfl, rfl, rfl⟩

/-! ## Lemmas about the operation executor -/

/-- The first-attempt try body never writes the connection state. -/
theorem perform_try_state (cap : DeviceCap) (op : Operation) (reused : Bool)
    (ra : Nat) (s : ConnState) (w : World) :
    (∀ r s1 w1, perform_try cap op reused ra s w = .ok r s1 w1 → s1 = s) ∧
    (∀ e s1 w1, perform_try cap op reused ra s w = .exc e s1 w1 → s1 = s) := by
  constructor <;> intro x s1 w1 he <;> unfold perform_try at he <;>
    (repeat' split at he) <;>
    first
      | exact TryOut.noConfusion he
      | (injection he with h1 h2 h3
         exact h2.symm)

/-- The retry body never writes the connection state (the state it returns is
the one the second `ensure_connection` produced). -/
theorem perform_retry_state (cap : DeviceCap) (op : Operation) (e : Exc)
    (ra : Nat) (s : ConnState) (w : World) :
    (perform_retry cap op e ra s w).state = s := by
  unfold perform_retry
  (repeat' split) <;> rfl

/-- The except block preserves the handle/timestamp invariant. -/
theorem perform_handle_inv (cfg : Config) (cap : DeviceCap) (now : Int)
    (op : Operation) (e : Exc) (reused : Bool) (ra : Nat) (s : ConnState)
    (w : World) (h : StateInv s) :
    StateInv (perform_handle cfg cap now op e reused ra s w).state := by
  unfold perform_handle
  split_ifs with hc
  · have hinv : StateInv (ensure_connection cfg cap now
        {s with is_connected := false, connection_time := none} w
        cfg.maxReconnectAttempts).state := by
      unfold ensure_connection
      exact ensure_loop_inv cfg cap now _ _ _ (fun hx => absurd hx (by simp))
    dsimp only
    split_ifs with hok
    · rw [perform_retry_state]
      exact hinv
    · exact hinv
  · exact h

/-! ## Claim C8 -/

/-- C8: the invariant "connected implies the device handle and the timestamp
are present" is preserved by `ensure_connection`, by `disconnect` and by
`perform_device_operation`. -/
theorem c8_invariant_preserved (cfg : Config) (cap : DeviceCap) (now : Int)
    (op : Operation) (s : ConnState) (w : World) (m : Nat) (b : Bool)
    (h : StateInv s) :
    StateInv (ensure_connection cfg cap now s w m).state ∧
    StateInv (disconnect s b) ∧
    StateInv (perform_device_operation cfg cap now op s w).state := by
  refine ⟨?_, ?_, ?_⟩
  · unfold ensure_connection
    exact ensure_loop_inv cfg cap now m s _ h
  · unfold disconnect
    split_ifs with hg
    · intro hx
      exact absurd hx (by simp)
    · exact h
  · unfold perform_device_operation
    split_ifs with hv
    · rcases hpt : perform_try cap op true 0 s w with ⟨r, s1, w1⟩ | ⟨e, s1, w1⟩
      · have hs1 := (perform_try_state cap op true 0 s w).1 r s1 w1 hpt
        simp only [hpt]
        exact hs1 ▸ h
      · have hs1 := (perform_try_state cap op true 0 s w).2 e s1 w1 hpt
        simp only [hpt]
        exact perform_handle_inv cfg cap now op e true 0 s1 w1 (hs1 ▸ h)
    · have hrinv : StateInv (ensure_connection cfg cap now s w cfg.maxReconnectAttempts).state := by
        unfold ensure_connection
        exact ensure_loop_inv cfg cap now _ s _ h
      dsimp only
      split_ifs with hok
      · rcases hpt : perform_try cap op false 1
            (ensure_connection cfg cap now s w cfg.maxReconnectAttempts).state
            (ensure_connection cfg cap now s w cfg.maxReconnectAttempts).world
          with ⟨r, s1, w1⟩ | ⟨e, s1, w1⟩
        · have hs1 := (perform_try_state cap op false 1 _ _).1 r s1 w1 hpt
          simp only [hpt]
          exact hs1 ▸ hrinv
        · have hs1 := (perform_try_state cap op false 1 _ _).2 e s1 w1 hpt
          simp only [hpt]
          exact perform_handle_inv cfg cap now op e false 1 s1 w1 (hs1 ▸ hrinv)
      · exact perform_handle_inv cfg cap now op .connectFail false 1 _ _ hrinv

/-- C8 witness: the invariant after a full executor run from the initial
state. -/
theorem c8_invariant_witness :
    StateInv (perform_device_operation Config.default capAllOk 100 .toggle ConnState.init World.init).state :=
  (c8_invariant_preserved Config.default capAllOk 100 .toggle ConnState.init
    World.init 5 true (fun h => absurd h (by decide))).2.2

/-! ## Claim C9 -/

/-- C9: after `disconnect()` on a reachable state the connected flag and the
timestamp are cleared, the outcome does not depend on whether the handle's
disconnect raised (the embedding is total: no error propagates, the `finally`
always runs), `is_connection_valid` is false for every `now`, and a
subsequent `get_device_info` snapshot reports connected=false. -/
theorem c9_disconnect_clears (cfg : Config) (s : ConnState) (b : Bool) (now : Int)
    (h1 : StateInv s) (h2 : s.is_connected = false → s.connection_time = none) :
    (disconnect s b).is_connected = false ∧
    (disconnect s b).connection_time = none ∧
    disconnect s true = disconnect s false ∧
    is_connection_valid cfg (disconnect s b) now = false ∧
    info_reports_connected (get_device_info (disconnect s b) now) = false := by
  unfold disconnect
  split_ifs with hg
  · refine ⟨rfl, rfl, rfl, by simp [is_connection_valid], ?_⟩
    rcases hd : s.device with _ | d <;>
      simp [get_device_info, info_reports_connected, hd]
  · rcases hc : s.is_connected
    · have ht := h2 hc
      refine ⟨rfl, ht, rfl, by simp [is_connection_valid, hc], ?_⟩
      rcases hd : s.device with _ | d <;>
        simp [get_device_info, info_reports_connected, hd, hc]
    · exfalso
      have := (h1 hc).1
      simp [this, hc] at hg

/-- C9 witness: disconnecting a live session clears it and the snapshot
reports not connected. -/
theorem c9_disconnect_witness :
    (disconnect ⟨some dev1, some 50, true⟩ true).is_connected = false ∧
    info_reports_connected (get_device_info (disconnect ⟨some dev1, some 50, true⟩ true) 60) = false := by
  have h := c9_disconnect_clears Config.default ⟨some dev1, some 50, true⟩ true 60
    (fun _ => ⟨rfl, rfl⟩) (fun hx => absurd hx (by decide))
  exact ⟨h.1, h.2.2.2.2⟩

/-! ## Reachability of C9's hypotheses

The two hypotheses of `c9_disconnect_clears` are exactly `ReachInv`; the
following shows `ReachInv` holds at process start and is preserved by every
operation, so every reachable state satisfies them. -/

/-- The retry loop preserves `ReachInv`. -/
theorem ensure_loop_reach (cfg : Config) (cap : DeviceCap) (now : Int)
    (fuel : Nat) : ∀ s w, ReachInv s →
    ReachInv (ensure_loop cfg cap now fuel s w).state := by
  induction fuel with
  | zero => intro s w h; simpa [ensure_loop] using h
  | succ fuel ih =>
    intro s w h
    rw [ensure_loop]
    by_cases hv : is_connection_valid cfg s now = true
    · simpa [hv] using h
    · simp only [hv]
      rcases ha : ensure_attempt cap now s w with ⟨s1, w1⟩ | ⟨s1, w1⟩
      · have hs := ensure_attempt_ok_state cap now s w s1 w1 ha
        simp only [Bool.false_eq_true, if_false]
        constructor
        · exact fun _ => ⟨hs.2.1, by simp [hs.2.2]⟩
        · intro hc
          rw [hs.1] at hc
          exact Bool.noConfusion hc
      · by_cases hz : fuel = 0
        · subst hz
          simp only [Bool.false_eq_true, if_false, beq_self_eq_true, if_pos]
          exact ⟨fun hc => absurd hc (by simp), fun _ => rfl⟩
        · simp only [Bool.false_eq_true, if_false, beq_iff_eq, if_neg hz]
          exact ih _ _ ⟨fun hc => absurd hc (by simp), fun _ => rfl⟩

/-- `ensure_connection` preserves `ReachInv`. -/
theorem ensure_connection_reach (cfg : Config) (cap : DeviceCap) (now : Int)
    (s : ConnState) (w : World) (m : Nat) (h : ReachInv s) :
    ReachInv (ensure_connection cfg cap now s w m).state := by
  unfold ensure_connection
  exact ensure_loop_reach cfg cap now m s _ h

/-- The except block preserves `ReachInv`. -/
theorem perform_handle_reach (cfg : Config) (cap : DeviceCap) (now : Int)
    (op : Operation) (e : Exc) (reused : Bool) (ra : Nat) (s : ConnState)
    (w : World) (h : ReachInv s) :
    ReachInv (perform_handle cfg cap now op e reused ra s w).state := by
  unfold perform_handle
  split_ifs with hc
  · have hinv : ReachInv (ensure_connection cfg cap now
        {s with is_connected := false, connection_time := none} w
        cfg.maxReconnectAttempts).state :=
      ensure_connection_reach cfg cap now _ w cfg.maxReconnectAttempts
        ⟨fun hx => absurd hx (by simp), fun _ => rfl⟩
    dsimp only
    split_ifs with hok
    · rw [perform_retry_state]
      exact hinv
    · exact hinv
  · exact h

/-- `ReachInv` holds at process start and is preserved by every operation of
the manager and the executor. -/
theorem reachInv_preserved (cfg : Config) (cap : DeviceCap) (now : Int)
    (op : Operation) (s : ConnState) (w : World) (m : Nat) (b : Bool)
    (h : ReachInv s) :
    ReachInv ConnState.init ∧
    ReachInv (ensure_connection cfg cap now s w m).state ∧
    ReachInv (disconnect s b) ∧
    ReachInv (perform_device_operation cfg cap now op s w).state := by
  refine ⟨⟨fun hx => absurd hx (by simp [ConnState.init]), fun _ => rfl⟩,
          ensure_connection_reach cfg cap now s w m h, ?_, ?_⟩
  · unfold disconnect
    split_ifs with hg
    · exact ⟨fun hx => absurd hx (by simp), fun _ => rfl⟩
    · exact h
  · unfold perform_device_operation
    split_ifs with hv
    · rcases hpt : perform_try cap op true 0 s w with ⟨r, s1, w1⟩ | ⟨e, s1, w1⟩
      · have hs1 := (perform_try_state cap op true 0 s w).1 r s1 w1 hpt
        simp only [hpt]
        exact hs1 ▸ h
      · have hs1 := (perform_try_state cap op true 0 s w).2 e s1 w1 hpt
        simp only [hpt]
        exact perform_handle_reach cfg cap now op e true 0 s1 w1 (hs1 ▸ h)
    · have hrinv : ReachInv (ensure_connection cfg cap now s w cfg.maxReconnectAttempts).state :=
        ensure_connection_reach cfg cap now s w cfg.maxReconnectAttempts h
      dsimp only
      split_ifs with hok
      · rcases hpt : perform_try cap op false 1
            (ensure_connection cfg cap now s w cfg.maxReconnectAttempts).state
            (ensure_connection cfg cap now s w cfg.maxReconnectAttempts).world
          with ⟨r, s1, w1⟩ | ⟨e, s1, w1⟩
        · have hs1 := (perform_try_state cap op false 1 _ _).1 r s1 w1 hpt
          simp only [hpt]
          exact hs1 ▸ hrinv
        · have hs1 := (perform_try_state cap op false 1 _ _).2 e s1 w1 hpt
          simp only [hpt]
          exact perform_handle_reach cfg cap now op e false 1 s1 w1 (hs1 ▸ hrinv)
      · exact perform_handle_reach cfg cap now op .connectFail false 1 _ _ hrinv

/-! ## Dispatch lemmas -/

/-- A legal action makes exactly one device-action call on the first-attempt
dispatch, raising the device error when that call fails. -/
theorem first_dispatch_legal (cap : DeviceCap) (op : Operation) (d : Device)
    (w : World) (hl : legal_action d.productModel op = true) :
    first_dispatch cap op d w =
      ((if cap.actionOk w.actionCalls then none
        else some (.actionError (cap.actionMsg w.actionCalls))),
       {w with actionCalls := w.actionCalls + 1}) := by
  rcases hm : d.productModel with _ | _ | _ <;> cases op <;>
    simp_all [legal_action, first_dispatch, run_action] <;>
    by_cases hA : cap.actionOk w.actionCalls = true <;> simp [hA]

/-- An illegal action raises the family's `ValueError` on the first-attempt
dispatch, with no device-action call. -/
theorem first_dispatch_illegal (cap : DeviceCap) (op : Operation) (d : Device)
    (w : World) (hl : legal_action d.productModel op = false) :
    first_dispatch cap op d w =
      (some (if d.productModel = .SesameBot1 then Exc.unsupportedBot op
             else Exc.unsupportedLock op), w) := by
  rcases hm : d.productModel with _ | _ | _ <;> cases op <;>
    simp_all [legal_action, first_dispatch]

/-- A legal action makes exactly one device-action call on the retry
dispatch. -/
theorem retry_dispatch_legal (cap : DeviceCap) (op : Operation) (d : Device)
    (w : World) (hl : legal_action d.productModel op = true) :
    retry_dispatch cap op d w =
      ((if cap.actionOk w.actionCalls then none
        else some (.actionError (cap.actionMsg w.actionCalls))),
       {w with actionCalls := w.actionCalls + 1}) := by
  rcases hm : d.productModel with _ | _ | _ <;> cases op <;>
    simp_all [legal_action, retry_dispatch, run_action] <;>
    by_cases hA : cap.actionOk w.actionCalls = true <;> simp [hA]

/-- An illegal action matches no branch of the retry dispatch (which has no
`else`): nothing happens, no call, no exception. -/
theorem retry_dispatch_illegal (cap : DeviceCap) (op : Operation) (d : Device)
    (w : World) (hl : legal_action d.productModel op = false) :
    retry_dispatch cap op d w = (none, w) := by
  rcases hm : d.productModel with _ | _ | _ <;> cases op <;>
    simp_all [legal_action, retry_dispatch]

/-! ## Path-reduction lemmas for the executor -/

/-- First attempt with a connected device and a legal action whose device
call raises. -/
theorem perform_try_legal_fail (cap : DeviceCap) (op : Operation)
    (s : ConnState) (w : World) (d : Device) (reused : Bool) (ra : Nat)
    (hd : s.device = some d)
    (hl : legal_action d.productModel op = true)
    (ha : cap.actionOk w.actionCalls = false) :
    perform_try cap op reused ra s w =
      .exc (.actionError (cap.actionMsg w.actionCalls)) s
        {w with actionCalls := w.actionCalls + 1} := by
  unfold perform_try
  simp only [hd]
  rw [first_dispatch_legal cap op d w hl]
  simp [ha]

/-- First attempt with a connected device and a legal action that succeeds. -/
theorem perform_try_legal_ok (cap : DeviceCap) (op : Operation)
    (s : ConnState) (w : World) (d : Device) (reused : Bool) (ra : Nat)
    (hd : s.device = some d)
    (hl : legal_action d.productModel op = true)
    (ha : cap.actionOk w.actionCalls = true) :
    perform_try cap op reused ra s w =
      .ok (mkSuccessResult op d "" reused ra
            (cap.mech ({w with actionCalls := w.actionCalls + 1}).statusCalls)
            (cap.devStatus ({w with actionCalls := w.actionCalls + 1}).statusCalls))
          s
          {w with actionCalls := w.actionCalls + 1,
                  statusCalls := w.statusCalls + 1} := by
  unfold perform_try
  simp only [hd]
  rw [first_dispatch_legal cap op d w hl]
  simp [ha, read_status]

/-- First attempt with a connected device and an illegal action: the
validation `ValueError` is raised, no device-action call is made. -/
theorem perform_try_illegal (cap : DeviceCap) (op : Operation)
    (s : ConnState) (w : World) (d : Device) (reused : Bool) (ra : Nat)
    (hd : s.device = some d)
    (hl : legal_action d.productModel op = false) :
    perform_try cap op reused ra s w =
      .exc (if d.productModel = .SesameBot1 then Exc.unsupportedBot op
            else Exc.unsupportedLock op) s w := by
  unfold perform_try
  simp only [hd]
  rw [first_dispatch_illegal cap op d w hl]

/-- The executor on a stale pool: validity false and `ensure_connection`
succeeding reduces to the try body on the fresh state. -/
theorem perform_fresh_ensure_ok (cfg : Config) (cap : DeviceCap) (now : Int)
    (op : Operation) (s s1 : ConnState) (w w1 : World)
    (hv : is_connection_valid cfg s now = false)
    (h1 : ensure_connection cfg cap now s w cfg.maxReconnectAttempts = ⟨true, s1, w1⟩) :
    perform_device_operation cfg cap now op s w =
      (match perform_try cap op false 1 s1 w1 with
       | .ok r s2 w2 => ⟨r, s2, w2⟩
       | .exc e s2 w2 => perform_handle cfg cap now op e false 1 s2 w2) := by
  unfold perform_device_operation
  simp [hv, h1]

/-- The executor when `ensure_connection` fails: the `RuntimeError` of line
237 goes straight to the except block. -/
theorem perform_fresh_ensure_fail (cfg : Config) (cap : DeviceCap) (now : Int)
    (op : Operation) (s s1 : ConnState) (w w1 : World)
    (hv : is_connection_valid cfg s now = false)
    (h1 : ensure_connection cfg cap now s w cfg.maxReconnectAttempts = ⟨false, s1, w1⟩) :
    perform_device_operation cfg cap now op s w =
      perform_handle cfg cap now op .connectFail false 1 s1 w1 := by
  unfold perform_device_operation
  simp [hv, h1]

/-- The executor on a valid pooled session reduces to the try body with
`connection_reused = true`. -/
theorem perform_reused (cfg : Config) (cap : DeviceCap) (now : Int)
    (op : Operation) (s : ConnState) (w : World)
    (hv : is_connection_valid cfg s now = true) :
    perform_device_operation cfg cap now op s w =
      (match perform_try cap op true 0 s w with
       | .ok r s2 w2 => ⟨r, s2, w2⟩
       | .exc e s2 w2 => perform_handle cfg cap now op e true 0 s2 w2) := by
  unfold perform_device_operation
  simp [hv]

/-- The except block on a reused session: `not connection_reused` is false,
so no reconnect, no retry — only the error result (main.py line 292). -/
theorem perform_handle_reused (cfg : Config) (cap : DeviceCap) (now : Int)
    (op : Operation) (e : Exc) (ra : Nat) (s : ConnState) (w : World) :
    perform_handle cfg cap now op e true ra s w =
      ⟨mkErrorResult e true ra, s, w⟩ := by
  unfold perform_handle
  simp

/-- The except block on a fresh session with retry budget: reset the state
and run `ensure_connection` once more. -/
theorem perform_handle_fresh (cfg : Config) (cap : DeviceCap) (now : Int)
    (op : Operation) (e : Exc) (s s2 : ConnState) (w w2 : World) (ok2 : Bool)
    (hmax : 1 < cfg.maxReconnectAttempts)
    (h2 : ensure_connection cfg cap now
           {s with is_connected := false, connection_time := none} w
           cfg.maxReconnectAttempts = ⟨ok2, s2, w2⟩) :
    perform_handle cfg cap now op e false 1 s w =
      (if ok2 then perform_retry cap op e 1 s2 w2
       else ⟨mkErrorResult e false 1, s2, w2⟩) := by
  unfold perform_handle
  simp [hmax, h2]

/-- The except block on a fresh session when `MAX_RECONNECT_ATTEMPTS ≤ 1`:
no retry. -/
theorem perform_handle_no_budget (cfg : Config) (cap : DeviceCap) (now : Int)
    (op : Operation) (e : Exc) (s : ConnState) (w : World)
    (hmax : cfg.maxReconnectAttempts ≤ 1) :
    perform_handle cfg cap now op e false 1 s w =
      ⟨mkErrorResult e false 1, s, w⟩ := by
  unfold perform_handle
  simp
  omega

/-- `ensure_connection` leaves the action and status counters alone and
records exactly one manager invocation. -/
theorem ensure_connection_world (cfg : Config) (cap : DeviceCap) (now : Int)
    (s : ConnState) (w : World) (m : Nat) :
    (ensure_connection cfg cap now s w m).world.actionCalls = w.actionCalls ∧
    (ensure_connection cfg cap now s w m).world.statusCalls = w.statusCalls ∧
    (ensure_connection cfg cap now s w m).world.ensureCalls = w.ensureCalls + 1 := by
  unfold ensure_connection
  have h := ensure_loop_world cfg cap now m s {w with ensureCalls := w.ensureCalls + 1}
  exact ⟨h.1, h.2.1, by rw [h.2.2.1]⟩

/-- The retry body with a connected device and a legal action: exactly one
device-action call; on its failure the error result carries the OUTER
exception and `reconnect_attempts` stays at `ra`. -/
theorem perform_retry_legal (cap : DeviceCap) (op : Operation) (e : Exc)
    (ra : Nat) (s : ConnState) (w : World) (d : Device)
    (hd : s.device = some d)
    (hl : legal_action d.productModel op = true) :
    perform_retry cap op e ra s w =
      (if cap.actionOk w.actionCalls then
        ⟨mkSuccessResult op d " after reconnection" false (ra + 1)
           (cap.mech ({w with actionCalls := w.actionCalls + 1}).statusCalls)
           (cap.devStatus ({w with actionCalls := w.actionCalls + 1}).statusCalls),
         s, {w with actionCalls := w.actionCalls + 1, statusCalls := w.statusCalls + 1}⟩
      else ⟨mkErrorResult e false ra, s, {w with actionCalls := w.actionCalls + 1}⟩) := by
  unfold perform_retry
  simp only [hd]
  rw [retry_dispatch_legal cap op d w hl]
  by_cases hA : cap.actionOk w.actionCalls = true <;> simp [hA, read_status]

/-- The retry body with a connected device and an ILLEGAL action: no branch
of the dispatch matches, no device action runs, and the body falls through to
the "completed successfully after reconnection" result. -/
theorem perform_retry_illegal (cap : DeviceCap) (op : Operation) (e : Exc)
    (ra : Nat) (s : ConnState) (w : World) (d : Device)
    (hd : s.device = some d)
    (hl : legal_action d.productModel op = false) :
    perform_retry cap op e ra s w =
      ⟨mkSuccessResult op d " after reconnection" false (ra + 1)
         (cap.mech w.statusCalls) (cap.devStatus w.statusCalls),
       s, {w with statusCalls := w.statusCalls + 1}⟩ := by
  unfold perform_retry
  simp only [hd]
  rw [retry_dispatch_illegal cap op d w hl]
  simp [read_status]

/-! ## Claim C1 -/

/-- C1 counterexample: a reused session (valid pool) whose action raises
produces a terminal error with `connection_reused = true`, zero
`ensure_connection` invocations and a single action call — the claimed
reconnect-and-retry cycle for reused sessions never runs (the source's
condition at main.py line 292 is `not connection_reused`). -/
theorem c1_reused_failure_no_retry_counterexample :
    (perform_device_operation Config.default capActFail 100 .toggle ⟨some dev1, some 50, true⟩ World.init).result.success = false ∧
    (perform_device_operation Config.default capActFail 100 .toggle ⟨some dev1, some 50, true⟩ World.init).result.connection_reused = true ∧
    (perform_device_operation Config.default capActFail 100 .toggle ⟨some dev1, some 50, true⟩ World.init).result.reconnect_attempts = 0 ∧
    (perform_device_operation Config.default capActFail 100 .toggle ⟨some dev1, some 50, true⟩ World.init).world.ensureCalls = 0 ∧
    (perform_device_operation Config.default capActFail 100 .toggle ⟨some dev1, some 50, true⟩ World.init).world.actionCalls = 1 :=
  ⟨rfl, rfl, rfl, rfl, rfl⟩

/-- C1 (amended): the reconnect-and-retry cycle runs iff the session was NOT
reused, i.e. freshly established in this call (and 1 < MAX_RECONNECT_ATTEMPTS).
(a) On a reused session an action failure is terminal at once: error result,
no second `ensure_connection`, no action retry, `reconnect_attempts = 0`.
(b) On a fresh session an action failure triggers exactly one cycle: the
state is reset and `ensure_connection` runs once more (two manager calls in
total); if it fails the request ends with the error result and one action
call; if it succeeds the action is retried exactly once — a second failure is
terminal with two action calls and two manager calls, a success yields
`reconnect_attempts = 2`. -/
theorem c1_retry_iff_fresh (cfg : Config) (cap : DeviceCap) (now : Int)
    (op : Operation) (s : ConnState) (w : World) (d : Device) :
    (is_connection_valid cfg s now = true → s.device = some d →
      legal_action d.productModel op = true →
      cap.actionOk w.actionCalls = false →
      perform_device_operation cfg cap now op s w =
        ⟨mkErrorResult (.actionError (cap.actionMsg w.actionCalls)) true 0, s,
         {w with actionCalls := w.actionCalls + 1}⟩) ∧
    (∀ s1 w1, is_connection_valid cfg s now = false →
      ensure_connection cfg cap now s w cfg.maxReconnectAttempts = ⟨true, s1, w1⟩ →
      s1.device = some d → legal_action d.productModel op = true →
      cap.actionOk w1.actionCalls = false → 1 < cfg.maxReconnectAttempts →
      (∀ s2 w2,
        ensure_connection cfg cap now
          {s1 with is_connected := false, connection_time := none}
          {w1 with actionCalls := w1.actionCalls + 1}
          cfg.maxReconnectAttempts = ⟨false, s2, w2⟩ →
        perform_device_operation cfg cap now op s w =
          ⟨mkErrorResult (.actionError (cap.actionMsg w1.actionCalls)) false 1, s2, w2⟩ ∧
        w2.ensureCalls = w.ensureCalls + 2 ∧ w2.actionCalls = w.actionCalls + 1) ∧
      (∀ s2 w2 d2,
        ensure_connection cfg cap now
          {s1 with is_connected := false, connection_time := none}
          {w1 with actionCalls := w1.actionCalls + 1}
          cfg.maxReconnectAttempts = ⟨true, s2, w2⟩ →
        s2.device = some d2 → legal_action d2.productModel op = true →
        (cap.actionOk w2.actionCalls = false →
          perform_device_operation cfg cap now op s w =
            ⟨mkErrorResult (.actionError (cap.actionMsg w1.actionCalls)) false 1, s2,
             {w2 with actionCalls := w2.actionCalls + 1}⟩ ∧
          w2.actionCalls + 1 = w.actionCalls + 2 ∧
          w2.ensureCalls = w.ensureCalls + 2) ∧
        (cap.actionOk w2.actionCalls = true →
          (perform_device_operation cfg cap now op s w).result.success = true ∧
          (perform_device_operation cfg cap now op s w).result.reconnect_attempts = 2 ∧
          (perform_device_operation cfg cap now op s w).world.actionCalls = w.actionCalls + 2))) := by
  constructor
  · intro hv hd hl ha
    rw [perform_reused cfg cap now op s w hv]
    rw [perform_try_legal_fail cap op s w d true 0 hd hl ha]
    exact perform_handle_reused cfg cap now op _ 0 s _
  · intro s1 w1 hv h1 hd hl ha1 hmax
    have e1 := (ensure_connection_world cfg cap now s w cfg.maxReconnectAttempts).1
    have e1e := (ensure_connection_world cfg cap now s w cfg.maxReconnectAttempts).2.2
    rw [h1] at e1 e1e
    simp only at e1 e1e
    have hred : perform_device_operation cfg cap now op s w =
        perform_handle cfg cap now op (.actionError (cap.actionMsg w1.actionCalls)) false 1 s1
          {w1 with actionCalls := w1.actionCalls + 1} := by
      rw [perform_fresh_ensure_ok cfg cap now op s s1 w w1 hv h1]
      rw [perform_try_legal_fail cap op s1 w1 d false 1 hd hl ha1]
    constructor
    · intro s2 w2 h2
      have e2 := (ensure_connection_world cfg cap now
        {s1 with is_connected := false, connection_time := none}
        {w1 with actionCalls := w1.actionCalls + 1} cfg.maxReconnectAttempts).1
      have e2e := (ensure_connection_world cfg cap now
        {s1 with is_connected := false, connection_time := none}
        {w1 with actionCalls := w1.actionCalls + 1} cfg.maxReconnectAttempts).2.2
      rw [h2] at e2 e2e
      simp only at e2 e2e
      refine ⟨?_, by omega, by omega⟩
      rw [hred]
      rw [perform_handle_fresh cfg cap now op _ s1 s2 _ w2 false hmax h2]
      rfl
    · intro s2 w2 d2 h2 hd2 hl2
      have e2 := (ensure_connection_world cfg cap now
        {s1 with is_connected := false, connection_time := none}
        {w1 with actionCalls := w1.actionCalls + 1} cfg.maxReconnectAttempts).1
      have e2e := (ensure_connection_world cfg cap now
        {s1 with is_connected := false, connection_time := none}
        {w1 with actionCalls := w1.actionCalls + 1} cfg.maxReconnectAttempts).2.2
      rw [h2] at e2 e2e
      simp only at e2 e2e
      have hred2 : perform_device_operation cfg cap now op s w =
          perform_retry cap op (.actionError (cap.actionMsg w1.actionCalls)) 1 s2 w2 := by
        rw [hred]
        rw [perform_handle_fresh cfg cap now op _ s1 s2 _ w2 true hmax h2]
        rfl
      constructor
      · intro ha2
        refine ⟨?_, by omega, by omega⟩
        rw [hred2]
        rw [perform_retry_legal cap op _ 1 s2 w2 d2 hd2 hl2]
        simp [ha2]
      · intro ha2
        rw [hred2]
        rw [perform_retry_legal cap op _ 1 s2 w2 d2 hd2 hl2]
        simp only [ha2, if_pos]
        refine ⟨rfl, rfl, ?_⟩
        dsimp only
        omega

/-- C1 witness: part (a) of the amended claim at a concrete stale pooled
session. -/
theorem c1_retry_iff_fresh_witness :
    perform_device_operation Config.default capActFail 100 .toggle ⟨some dev1, some 50, true⟩ World.init =
      ⟨mkErrorResult (.actionError "link dropped") true 0, ⟨some dev1, some 50, true⟩,
       {World.init with actionCalls := 1}⟩ :=
  (c1_retry_iff_fresh Config.default capActFail 100 .toggle ⟨some dev1, some 50, true⟩
    World.init dev1).1 rfl rfl rfl rfl

/-! ## Claim C2 -/

/-- C2 counterexample: when the first `ensure_connection` fails the executor
does NOT fail immediately — it invokes `ensure_connection` a second time
(except block, main.py line 299), here reaching 10 connect calls against
`MAX_RECONNECT_ATTEMPTS = 5`. -/
theorem c2_second_ensure_counterexample :
    (perform_device_operation Config.default capConnFail 100 .toggle ConnState.init World.init).result.success = false ∧
    (perform_device_operation Config.default capConnFail 100 .toggle ConnState.init World.init).world.ensureCalls = 2 ∧
    (perform_device_operation Config.default capConnFail 100 .toggle ConnState.init World.init).world.connectCalls = 10 ∧
    Config.default.maxReconnectAttempts = 5 :=
  ⟨rfl, rfl, rfl, rfl⟩

/-- C2 (amended): with no valid pooled connection the executor marks
`reused = false` and calls `ensure_connection`; when that returns false it
does not fail at once — being a non-reused session with
`1 < MAX_RECONNECT_ATTEMPTS` it clears the state and calls
`ensure_connection` exactly once more (two manager invocations, no device
action so far); only when the second call also fails does it return the
connection-failure result (success = false, `reconnect_attempts = 1`).  When
`MAX_RECONNECT_ATTEMPTS ≤ 1` it does fail immediately. -/
theorem c2_connfail_retries_connection (cfg : Config) (cap : DeviceCap)
    (now : Int) (op : Operation) (s : ConnState) (w : World) :
    ∀ s1 w1, is_connection_valid cfg s now = false →
      ensure_connection cfg cap now s w cfg.maxReconnectAttempts = ⟨false, s1, w1⟩ →
      (∀ ok2 s2 w2, ensure_connection cfg cap now
          {s1 with is_connected := false, connection_time := none} w1
          cfg.maxReconnectAttempts = ⟨ok2, s2, w2⟩ →
        1 < cfg.maxReconnectAttempts →
        w2.ensureCalls = w.ensureCalls + 2 ∧ w2.actionCalls = w.actionCalls ∧
        (ok2 = false →
          perform_device_operation cfg cap now op s w =
            ⟨mkErrorResult .connectFail false 1, s2, w2⟩)) ∧
      (cfg.maxReconnectAttempts ≤ 1 →
        perform_device_operation cfg cap now op s w =
          ⟨mkErrorResult .connectFail false 1, s1, w1⟩) := by
  intro s1 w1 hv h1
  have e1 := (ensure_connection_world cfg cap now s w cfg.maxReconnectAttempts).1
  have e1e := (ensure_connection_world cfg cap now s w cfg.maxReconnectAttempts).2.2
  rw [h1] at e1 e1e
  simp only at e1 e1e
  constructor
  · intro ok2 s2 w2 h2 hmax
    have e2 := (ensure_connection_world cfg cap now
      {s1 with is_connected := false, connection_time := none} w1
      cfg.maxReconnectAttempts).1
    have e2e := (ensure_connection_world cfg cap now
      {s1 with is_connected := false, connection_time := none} w1
      cfg.maxReconnectAttempts).2.2
    rw [h2] at e2 e2e
    simp only at e2 e2e
    refine ⟨by omega, by omega, ?_⟩
    intro hok2
    subst hok2
    rw [perform_fresh_ensure_fail cfg cap now op s s1 w w1 hv h1]
    rw [perform_handle_fresh cfg cap now op _ s1 s2 w1 w2 false hmax h2]
    rfl
  · intro hm
    rw [perform_fresh_ensure_fail cfg cap now op s s1 w w1 hv h1]
    exact perform_handle_no_budget cfg cap now op _ s1 w1 hm

/-- C2 witness: the amended claim at the all-connects-fail capability,
yielding the connection-failure result after exactly two manager calls. -/
theorem c2_connfail_witness :
    perform_device_operation Config.default capConnFail 100 .toggle ConnState.init World.init =
      ⟨mkErrorResult .connectFail false 1, ⟨some dev1, none, false⟩,
       ⟨1, 10, 0, 0, 0, 8, 16, 2⟩⟩ :=
  ((c2_connfail_retries_connection Config.default capConnFail 100 .toggle
      ConnState.init World.init ⟨some dev1, none, false⟩ ⟨1, 5, 0, 0, 0, 4, 8, 1⟩
      rfl rfl).1 false ⟨some dev1, none, false⟩ ⟨1, 10, 0, 0, 0, 8, 16, 2⟩
      rfl (by decide)).2.2 rfl

/-! ## Claim C3 -/

/-- C3: evaluation at the failing input.  A `click` against a lock-family
device with NO valid pooled connection does not fail with the validation
error: the `ValueError` sends the executor into the reconnect path, a second
connection is made (2 connect calls of device I/O), no device action is ever
invoked, and the result is `success = true` with message "Operation 'click'
completed successfully after reconnection". -/
theorem c3_fresh_illegal_op_false_success :
    (perform_device_operation Config.default capAllOk 100 .click ConnState.init World.init).result.success = true ∧
    (perform_device_operation Config.default capAllOk 100 .click ConnState.init World.init).result.message =
      "Operation 'click' completed successfully after reconnection" ∧
    (perform_device_operation Config.default capAllOk 100 .click ConnState.init World.init).world.actionCalls = 0 ∧
    (perform_device_operation Config.default capAllOk 100 .click ConnState.init World.init).world.connectCalls = 2 ∧
    dev1.productModel = ProductModel.SS2 :=
  ⟨rfl, rfl, rfl, rfl, rfl⟩

/-! ## Claim C4 -/

/-- C4: the reconnect-and-retry path re-validates nothing.  For any operation
illegal for the connected device's family, when the first attempt raised (the
validation error), the connection was freshly established, and both
`ensure_connection` calls succeed, the retry dispatch (main.py lines 303-312,
no `else` branches) matches no branch: the executor invokes no device action
yet returns `success = true` with the message "completed successfully after
reconnection" and `reconnect_attempts = 2`. -/
theorem c4_retry_skips_validation (cfg : Config) (cap : DeviceCap) (now : Int)
    (op : Operation) (s s1 s2 : ConnState) (w w1 w2 : World) (d d2 : Device)
    (hv : is_connection_valid cfg s now = false)
    (h1 : ensure_connection cfg cap now s w cfg.maxReconnectAttempts = ⟨true, s1, w1⟩)
    (hd : s1.device = some d)
    (hl : legal_action d.productModel op = false)
    (hmax : 1 < cfg.maxReconnectAttempts)
    (h2 : ensure_connection cfg cap now
            {s1 with is_connected := false, connection_time := none} w1
            cfg.maxReconnectAttempts = ⟨true, s2, w2⟩)
    (hd2 : s2.device = some d2)
    (hl2 : legal_action d2.productModel op = false) :
    perform_device_operation cfg cap now op s w =
      ⟨mkSuccessResult op d2 " after reconnection" false 2
         (cap.mech w2.statusCalls) (cap.devStatus w2.statusCalls),
       s2, {w2 with statusCalls := w2.statusCalls + 1}⟩ ∧
    (perform_device_operation cfg cap now op s w).result.success = true ∧
    (perform_device_operation cfg cap now op s w).result.message =
      "Operation '" ++ op.name ++ "' completed successfully after reconnection" ∧
    (perform_device_operation cfg cap now op s w).world.actionCalls = w.actionCalls := by
  have e1 := (ensure_connection_world cfg cap now s w cfg.maxReconnectAttempts).1
  rw [h1] at e1
  simp only at e1
  have e2 := (ensure_connection_world cfg cap now
    {s1 with is_connected := false, connection_time := none} w1
    cfg.maxReconnectAttempts).1
  rw [h2] at e2
  simp only at e2
  have hmain : perform_device_operation cfg cap now op s w =
      ⟨mkSuccessResult op d2 " after reconnection" false 2
         (cap.mech w2.statusCalls) (cap.devStatus w2.statusCalls),
       s2, {w2 with statusCalls := w2.statusCalls + 1}⟩ := by
    rw [perform_fresh_ensure_ok cfg cap now op s s1 w w1 hv h1]
    rw [perform_try_illegal cap op s1 w1 d false 1 hd hl]
    dsimp only
    rw [perform_handle_fresh cfg cap now op _ s1 s2 w1 w2 true hmax h2]
    rw [if_pos rfl]
    rw [perform_retry_illegal cap op _ 1 s2 w2 d2 hd2 hl2]
  refine ⟨hmain, by rw [hmain]; rfl, ?_, ?_⟩
  · rw [hmain]
    cases op <;> rfl
  · rw [hmain]
    dsimp only
    omega

/-- C4 witness: the claim applied at the concrete `click`-against-lock
scenario. -/
theorem c4_retry_skips_validation_witness :
    perform_device_operation Config.default capAllOk 100 .click ConnState.init World.init =
      ⟨mkSuccessResult .click dev1 " after reconnection" false 2 none "locked",
       ⟨some dev1, some 100, true⟩, ⟨1, 2, 2, 0, 1, 0, 0, 2⟩⟩ :=
  (c4_retry_skips_validation Config.default capAllOk 100 .click
    ConnState.init ⟨some dev1, some 100, true⟩ ⟨some dev1, some 100, true⟩
    World.init ⟨1, 1, 1, 0, 0, 0, 0, 1⟩ ⟨1, 2, 2, 0, 0, 0, 0, 2⟩ dev1 dev1
    rfl rfl rfl rfl (by decide) rfl rfl rfl).1

/-! ## Lemmas for the interleaving model -/

namespace Conc

/-- The exception handler's continuation is inside the section (a backoff or
the lock release). -/
theorem inSection_failPos (f : Nat) : inSection (failPos f) = true := by
  unfold failPos
  split_ifs <;> rfl

/-- Updating a task's own slot. -/
theorem upd_self (f : Nat → TPos) (t : Nat) (p : TPos) : upd f t p t = p := by
  simp [upd]

/-- Updating leaves the other tasks alone. -/
theorem upd_other (f : Nat → TPos) (t u : Nat) (p : TPos) (h : u ≠ t) :
    upd f t p u = f u := by
  simp [upd, h]

/-- A step that keeps the owner and moves task `t` to a position `p'` (owned
by `t` whenever `p'` is inside the section) preserves the lock invariant. -/
theorem lockInv_internal (sys : Sys) (t : Nat) (p' : TPos) (conn' : ConnState)
    (w' : World) (h : LockInv sys)
    (hself : inSection p' = true → sys.shared.owner = some t) :
    LockInv ⟨⟨conn', w', sys.shared.owner⟩, upd sys.tasks t p'⟩ := by
  intro u hu
  dsimp only at hu
  by_cases hut : u = t
  · subst hut
    rw [upd_self] at hu
    exact hself hu
  · rw [upd_other sys.tasks t u p' hut] at hu
    exact h u hu

/-- Acquiring a free lock preserves the lock invariant (nobody was inside). -/
theorem lockInv_acquire (sys : Sys) (t : Nat) (p' : TPos) (conn' : ConnState)
    (w' : World) (h : LockInv sys) (howner : sys.shared.owner = none) :
    LockInv ⟨⟨conn', w', some t⟩, upd sys.tasks t p'⟩ := by
  intro u hu
  dsimp only at hu
  by_cases hut : u = t
  · subst hut
    rfl
  · exfalso
    rw [upd_other sys.tasks t u p' hut] at hu
    have h2 := h u hu
    rw [howner] at h2
    exact Option.noConfusion h2

/-- The owner releasing the lock and leaving the section preserves the lock
invariant. -/
theorem lockInv_release (sys : Sys) (t : Nat) (p' : TPos) (conn' : ConnState)
    (w' : World) (h : LockInv sys) (howner : sys.shared.owner = some t)
    (hp' : inSection p' = false) :
    LockInv ⟨⟨conn', w', none⟩, upd sys.tasks t p'⟩ := by
  intro u hu
  dsimp only at hu
  exfalso
  by_cases hut : u = t
  · subst hut
    rw [upd_self] at hu
    rw [hp'] at hu
    exact Bool.noConfusion hu
  · rw [upd_other sys.tasks t u p' hut] at hu
    have h2 := h u hu
    rw [howner] at h2
    exact hut (Option.some.inj h2).symm

/-- Every scheduler step preserves the lock invariant. -/
theorem step_lockInv (cfg : Config) (cap : DeviceCap) (now : Int) (sys : Sys)
    (t : Nat) (h : LockInv sys) : LockInv (step cfg cap now sys t) := by
  unfold step
  rcases hp : sys.tasks t with m | f | f | f | f | f | ok | ok | _ | _ <;>
    simp only [hp]
  · rcases ho : sys.shared.owner with _ | ow <;> simp only [ho]
    · exact lockInv_acquire sys t _ _ _ h ho
    · exact h
  · rcases f with _ | f
    · exact lockInv_internal sys t _ _ _ h (fun _ => h t (by rw [hp]; rfl))
    · by_cases hv : is_connection_valid cfg sys.shared.conn now = true <;>
        simp only [hv]
      · exact lockInv_internal sys t _ _ _ h (fun _ => h t (by rw [hp]; rfl))
      · rcases hd : sys.shared.conn.device with _ | d <;> simp only [hd] <;>
          exact lockInv_internal sys t _ _ _ h (fun _ => h t (by rw [hp]; rfl))
  · rcases hs : cap.scanResult sys.shared.world.scanCalls with _ | d <;>
      simp only [hs] <;>
      exact lockInv_internal sys t _ _ _ h (fun _ => h t (by rw [hp]; rfl))
  · by_cases hc : cap.connectOk sys.shared.world.connectCalls = true <;>
      simp only [hc] <;>
      exact lockInv_internal sys t _ _ _ h (fun _ => h t (by rw [hp]; rfl))
  · by_cases hc : cap.loginOk sys.shared.world.loginCalls = true <;>
      simp only [hc] <;>
      exact lockInv_internal sys t _ _ _ h (fun _ => h t (by rw [hp]; rfl))
  · exact lockInv_internal sys t _ _ _ h (fun _ => h t (by rw [hp]; rfl))
  · by_cases ho : sys.shared.owner = some t
    · rw [if_pos ho]
      exact lockInv_release sys t _ _ _ h ho rfl
    · rw [if_neg ho]
      exact absurd (h t (by rw [hp]; rfl)) ho
  · exact h
  · exact lockInv_internal sys t _ _ _ h (fun hx => Bool.noConfusion hx)
  · exact h

/-- The lock invariant holds along every schedule. -/
theorem run_lockInv (cfg : Config) (cap : DeviceCap) (now : Int) :
    ∀ (sched : List Nat) (sys : Sys), LockInv sys →
      LockInv (run cfg cap now sys sched) := by
  intro sched
  induction sched with
  | nil => intro sys h; exact h
  | cons t rest ih =>
    intro sys h
    exact ih _ (step_lockInv cfg cap now sys t h)

/-- Any step that performs scan or connect device I/O is made by the lock's
owner. -/
theorem step_io_locked (cfg : Config) (cap : DeviceCap) (now : Int)
    (sys : Sys) (t : Nat) (h : LockInv sys)
    (hne : (step cfg cap now sys t).shared.world.scanCalls ≠ sys.shared.world.scanCalls ∨
           (step cfg cap now sys t).shared.world.connectCalls ≠ sys.shared.world.connectCalls) :
    sys.shared.owner = some t := by
  rcases hp : sys.tasks t with m | f | f | f | f | f | ok | ok | _ | _
  · exfalso
    rcases hne with hne | hne <;>
      (apply hne
       unfold step
       rw [hp]
       rcases ho : sys.shared.owner with _ | ow <;> simp only [ho])
  · exact h t (by rw [hp]; rfl)
  · exact h t (by rw [hp]; rfl)
  · exact h t (by rw [hp]; rfl)
  · exact h t (by rw [hp]; rfl)
  · exact h t (by rw [hp]; rfl)
  · exact h t (by rw [hp]; rfl)
  · exfalso
    rcases hne with hne | hne <;>
      (apply hne
       unfold step
       rw [hp])
  · exfalso
    rcases hne with hne | hne <;>
      (apply hne
       unfold step
       rw [hp])
  · exfalso
    rcases hne with hne | hne <;>
      (apply hne
       unfold step
       rw [hp])

/-- Any step that mutates the shared ConnectionState is either the executor's
recovery-path reset or a step of the lock's owner. -/
theorem step_conn_mutation (cfg : Config) (cap : DeviceCap) (now : Int)
    (sys : Sys) (t : Nat) (h : LockInv sys)
    (hne : (step cfg cap now sys t).shared.conn ≠ sys.shared.conn) :
    sys.tasks t = TPos.resetPending ∨ sys.shared.owner = some t := by
  rcases hp : sys.tasks t with m | f | f | f | f | f | ok | ok | _ | _
  · exfalso
    apply hne
    unfold step
    rw [hp]
    rcases ho : sys.shared.owner with _ | ow <;> simp only [ho]
  · exact .inr (h t (by rw [hp]; rfl))
  · exact .inr (h t (by rw [hp]; rfl))
  · exact .inr (h t (by rw [hp]; rfl))
  · exact .inr (h t (by rw [hp]; rfl))
  · exact .inr (h t (by rw [hp]; rfl))
  · exact .inr (h t (by rw [hp]; rfl))
  · exfalso
    apply hne
    unfold step
    rw [hp]
  · exact .inl rfl
  · exfalso
    apply hne
    unfold step
    rw [hp]

/-- The concrete two-task system satisfies the lock invariant: nobody is
inside the section yet. -/
theorem sysCX_lockInv : LockInv sysCX := by
  intro t ht
  exfalso
  unfold sysCX at ht
  dsimp only at ht
  split_ifs at ht <;> exact Bool.noConfusion ht

end Conc

/-! ## Claim C10 -/

/-- C10 counterexample: with task 0 an `ensure_connection` call that has
acquired the lock (after schedule `[0]` the owner is task 0), task 1 — the
operation executor's recovery path of main.py lines 296-297 — still mutates
the shared ConnectionState in its next step, without holding the lock: the
claim that ConnectionState is mutated only while holding the lock is false. -/
theorem c10_unlocked_mutation_counterexample :
    (Conc.run Config.default capAllOk 60 Conc.sysCX [0]).shared.owner = some 0 ∧
    (Conc.run Config.default capAllOk 60 Conc.sysCX [0]).tasks 1 = Conc.TPos.resetPending ∧
    (Conc.step Config.default capAllOk 60 (Conc.run Config.default capAllOk 60 Conc.sysCX [0]) 1).shared.conn ≠
      (Conc.run Config.default capAllOk 60 Conc.sysCX [0]).shared.conn := by
  refine ⟨rfl, rfl, ?_⟩
  intro hcontra
  exact absurd (congrArg ConnState.is_connected hcontra) (by decide)

/-- C10 (amended): for any number of concurrent tasks and any schedule, no
two tasks are ever simultaneously inside the lock-protected connect section
of `ensure_connection` (so scan/connect sequences never overlap), and every
step that performs scan or connect device I/O is made by the lock's owner;
every step of the Connection Manager's machine that mutates ConnectionState
is likewise made by the lock's owner — but ConnectionState is NOT mutated
only while holding the lock: the one exception is the operation executor's
recovery-path reset (main.py lines 296-297), which runs without acquiring
it. -/
theorem c10_serialization_and_lock_discipline (cfg : Config) (cap : DeviceCap)
    (now : Int) :
    (∀ sys sched, Conc.LockInv sys →
      ∀ t u, t ≠ u →
        ¬(Conc.inSection ((Conc.run cfg cap now sys sched).tasks t) = true ∧
          Conc.inSection ((Conc.run cfg cap now sys sched).tasks u) = true)) ∧
    (∀ sys t, Conc.LockInv sys →
      ((Conc.step cfg cap now sys t).shared.world.scanCalls ≠ sys.shared.world.scanCalls ∨
       (Conc.step cfg cap now sys t).shared.world.connectCalls ≠ sys.shared.world.connectCalls) →
      sys.shared.owner = some t) ∧
    (∀ sys t, Conc.LockInv sys →
      (Conc.step cfg cap now sys t).shared.conn ≠ sys.shared.conn →
      sys.tasks t = Conc.TPos.resetPending ∨ sys.shared.owner = some t) := by
  refine ⟨?_, ?_, ?_⟩
  · intro sys sched h t u htu hc
    obtain ⟨h1, h2⟩ := hc
    have hrun := Conc.run_lockInv cfg cap now sched sys h
    have o1 := hrun t h1
    have o2 := hrun u h2
    rw [o1] at o2
    exact htu (Option.some.inj o2)
  · intro sys t h hne
    exact Conc.step_io_locked cfg cap now sys t h hne
  · intro sys t h hne
    exact Conc.step_conn_mutation cfg cap now sys t h hne

/-- C10 witness: the serialization conjunct applied at the concrete two-task
system and a concrete schedule. -/
theorem c10_serialization_witness :
    ¬(Conc.inSection ((Conc.run Config.default capAllOk 60 Conc.sysCX [0, 1]).tasks 0) = true ∧
      Conc.inSection ((Conc.run Config.default capAllOk 60 Conc.sysCX [0, 1]).tasks 1) = true) :=
  (c10_serialization_and_lock_discipline Config.default capAllOk 60).1
    Conc.sysCX [0, 1] Conc.sysCX_lockInv 0 1 (by decide)

end Sesame
